import Mathlib

/-!
Shallow embedding of the Eviction platformer simulation core (src/game.js).
Numeric values are modelled as rationals.  The per-frame `update` function,
the spawn helpers and the axis-aligned intersection test follow the source
line by line.  The random draws consumed during one tick are passed
explicitly as a `Rands` record (each field is the value the corresponding
Math.random() call returns); the canvas dimensions, which the source reads
from the DOM, are parameters.
-/

namespace Eviction

/-- Gravity acceleration (game.js line 14). -/
def GRAVITY : ℚ := 0.5

/-- Initial jump velocity (game.js line 15). -/
def JUMP_VELOCITY : ℚ := -12

/-- Scroll speed in pixels per frame (game.js line 16). -/
def WORLD_SPEED : ℚ := 3

/-- Ground height in pixels (game.js line 17). -/
def GROUND_HEIGHT : ℚ := 80

/-- Hero width and height on screen (game.js line 18). -/
def HERO_SIZE : ℚ := 80

/-- Enemy width and height (game.js line 19). -/
def ENEMY_SIZE : ℚ := 80

/-- Size for envelopes (game.js line 20). -/
def ITEM_SIZE : ℚ := 50

/-- Size for thrown eviction letters (game.js line 21). -/
def LETTER_SIZE : ℚ := 20

/-- Base interval (ms) between enemy spawns (game.js line 118). -/
def ENEMY_SPAWN_BASE : ℚ := 3500

/-- Base interval (ms) between envelope spawns (game.js line 121). -/
def ENVELOPE_SPAWN_BASE : ℚ := 2500

/-- An enemy or envelope record: world-x, screen-y, width, height
(game.js lines 158-163 and 169-174). -/
structure Entity where
  x : ℚ
  y : ℚ
  width : ℚ
  height : ℚ
  deriving DecidableEq

/-- A thrown letter record (game.js lines 145-151). -/
structure Letter where
  x : ℚ
  y : ℚ
  width : ℚ
  height : ℚ
  speed : ℚ
  deriving DecidableEq

/-- The hero record (game.js lines 95-105).  `lives` and `score` are
integers in the source; they are modelled as ℤ so that the question of
whether they can become negative is expressible. -/
structure Hero where
  worldX : ℚ
  x : ℚ
  y : ℚ
  vy : ℚ
  onGround : Bool
  frameIndex : ℕ
  frameTimer : ℚ
  lives : ℤ
  score : ℤ
  deriving DecidableEq

/-- The whole mutable simulation state of game.js: the hero, the camera
(line 106), the game-over flag (line 108), the three entity lists
(lines 111-113) and the two spawn timers (lines 116, 119). -/
structure GameState where
  hero : Hero
  cameraX : ℚ
  gameOver : Bool
  enemies : List Entity
  envelopes : List Entity
  letters : List Letter
  enemySpawnTimer : ℚ
  envelopeSpawnTimer : ℚ
  deriving DecidableEq

/-- The values returned by the (up to five) Math.random() calls made during
one `update` tick, in source order: the enemy spawn-threshold jitter
(line 213), the enemy forward offset (line 157), the envelope
spawn-threshold jitter (line 220), the envelope forward offset (line 168)
and the envelope height offset (line 171). -/
structure Rands where
  enemyJitter : ℚ
  enemySpawnOff : ℚ
  envJitter : ℚ
  envSpawnOff : ℚ
  envYOff : ℚ
  deriving DecidableEq

/-- The initial hero of game.js lines 95-105 (the screen height is a
parameter). -/
def initHero (canvasH : ℚ) : Hero :=
  { worldX := 0
    x := 100
    y := canvasH - GROUND_HEIGHT - HERO_SIZE
    vy := 0
    onGround := true
    frameIndex := 0
    frameTimer := 0
    lives := 3
    score := 0 }

/-- The initial game state (game.js lines 95-121): fresh hero, camera at 0,
empty entity lists, both spawn timers at 0, game not over. -/
def initState (canvasH : ℚ) : GameState :=
  { hero := initHero canvasH
    cameraX := 0
    gameOver := false
    enemies := []
    envelopes := []
    letters := []
    enemySpawnTimer := 0
    envelopeSpawnTimer := 0 }

/-- Axis-aligned rectangle intersection test (game.js lines 178-185):
`aX < bX + bW && aX + aW > bX && aY < bY + bH && aY + aH > bY`. -/
def rectIntersect (aX aY aW aH bX bY bW bH : ℚ) : Bool :=
  decide (aX < bX + bW) && decide (aX + aW > bX) &&
    decide (aY < bY + bH) && decide (aY + aH > bY)

/-- `spawnEnemy` (game.js lines 155-165): the enemy spawns ahead of the
camera at `cameraX + canvas.width + Math.random() * 600`, ground aligned.
`roff` is the Math.random() draw. -/
def spawnEnemy (cameraX canvasW canvasH roff : ℚ) : Entity :=
  { x := cameraX + canvasW + roff * 600
    y := canvasH - GROUND_HEIGHT - ENEMY_SIZE
    width := ENEMY_SIZE
    height := ENEMY_SIZE }

/-- `spawnEnvelope` (game.js lines 167-176): world-x is
`cameraX + canvas.width + Math.random() * 400`, screen-y is
`canvas.height - GROUND_HEIGHT - ITEM_SIZE - Math.random() * 120`.
`roff` and `ry` are the two Math.random() draws. -/
def spawnEnvelope (cameraX canvasW canvasH roff ry : ℚ) : Entity :=
  { x := cameraX + canvasW + roff * 400
    y := canvasH - GROUND_HEIGHT - ITEM_SIZE - ry * 120
    width := ITEM_SIZE
    height := ITEM_SIZE }

/-- The vertical physics block of `update` (game.js lines 194-202):
gravity is added to the velocity, the velocity is added to the position,
and if the position is strictly below the ground line it is clamped there,
the velocity zeroed and the ground flag set.  Returns (y, vy, onGround). -/
def physicsStep (canvasH y vy : ℚ) (onGround : Bool) : ℚ × ℚ × Bool :=
  let vy2 := vy + GRAVITY
  let y2 := y + vy2
  let groundY := canvasH - GROUND_HEIGHT - HERO_SIZE
  if y2 > groundY then (groundY, 0, true) else (y2, vy2, onGround)

/-- The run-animation block of `update` (game.js lines 205-209): the frame
timer accumulates `dt` seconds; past 0.15 it resets and the 2-phase frame
index toggles.  Returns (frameTimer, frameIndex). -/
def animStep (frameTimer dt : ℚ) (frameIndex : ℕ) : ℚ × ℕ :=
  let t := frameTimer + dt
  if t > 0.15 then (0, (frameIndex + 1) % 2) else (t, frameIndex)

/-- The enemy spawn-timer block of `update` (game.js lines 212-216): the
timer accumulates `dt * 1000` milliseconds; if it exceeds
`ENEMY_SPAWN_BASE + Math.random() * 1000` it resets to 0 and an enemy is
spawned.  Returns the new timer and whether a spawn happens. -/
def enemyTimerStep (timer dt jitter : ℚ) : ℚ × Bool :=
  if timer + dt * 1000 > ENEMY_SPAWN_BASE + jitter * 1000 then (0, true)
  else (timer + dt * 1000, false)

/-- The envelope spawn-timer block of `update` (game.js lines 219-223),
with threshold `ENVELOPE_SPAWN_BASE + Math.random() * 800`. -/
def envelopeTimerStep (timer dt jitter : ℚ) : ℚ × Bool :=
  if timer + dt * 1000 > ENVELOPE_SPAWN_BASE + jitter * 800 then (0, true)
  else (timer + dt * 1000, false)

/-- The enemy list as it stands right after the spawn block of a tick
(game.js lines 212-216): the previous list, plus the freshly pushed enemy
when the threshold was exceeded.  The camera has already advanced by
`WORLD_SPEED` when `spawnEnemy` reads it. -/
def enemiesAfterSpawn (canvasW canvasH : ℚ) (s : GameState) (dt : ℚ) (r : Rands) :
    List Entity :=
  if (enemyTimerStep s.enemySpawnTimer dt r.enemyJitter).2 then
    s.enemies ++ [spawnEnemy (s.cameraX + WORLD_SPEED) canvasW canvasH r.enemySpawnOff]
  else s.enemies

/-- The envelope list right after the spawn block of a tick
(game.js lines 219-223). -/
def envelopesAfterSpawn (canvasW canvasH : ℚ) (s : GameState) (dt : ℚ) (r : Rands) :
    List Entity :=
  if (envelopeTimerStep s.envelopeSpawnTimer dt r.envJitter).2 then
    s.envelopes ++ [spawnEnvelope (s.cameraX + WORLD_SPEED) canvasW canvasH r.envSpawnOff r.envYOff]
  else s.envelopes

/-- The part of the mutable state the enemy loop of `update` touches
(game.js lines 226-258): the letters list, lives, score and the game-over
flag. -/
structure EnemyLoopState where
  letters : List Letter
  lives : ℤ
  score : ℤ
  gameOver : Bool
  deriving DecidableEq

/-- The inner letter loop of the enemy loop (game.js lines 246-257): `j`
runs from the end of the letters list downwards and the FIRST letter found
overlapping (that is, the LAST such element of the list) is removed, after
which the loop breaks.  Returns `some` of the remaining list when a letter
was removed, `none` when no letter overlaps. -/
def removeLastOverlap (p : Letter → Bool) : List Letter → Option (List Letter)
  | [] => none
  | l :: ls =>
    match removeLastOverlap p ls with
    | some ls2 => some (l :: ls2)
    | none => if p l then some ls else none

/-- One iteration of the enemy loop of `update` (game.js lines 226-258) for
the enemy `e`: first the off-screen removal test, then the hero collision
test (remove enemy, decrement lives, set game over at lives <= 0, skip the
letter loop), and only if neither fires the letter loop.  Returns `some e`
when the enemy is kept, together with the updated loop state. -/
def processEnemy (heroX heroY cameraX : ℚ) (e : Entity) (st : EnemyLoopState) :
    Option Entity × EnemyLoopState :=
  if e.x - cameraX + e.width < 0 then (none, st)
  else if rectIntersect heroX heroY HERO_SIZE HERO_SIZE
      (e.x - cameraX) e.y e.width e.height then
    (none, { st with
      lives := st.lives - 1
      gameOver := if st.lives - 1 ≤ 0 then true else st.gameOver })
  else
    match removeLastOverlap
        (fun l => rectIntersect (l.x - cameraX) l.y l.width l.height
          (e.x - cameraX) e.y e.width e.height) st.letters with
    | some ls2 => (none, { st with letters := ls2, score := st.score + 20 })
    | none => (some e, st)

/-- The enemy loop of `update` (game.js lines 226-258).  The source
iterates from the last index downwards with in-place `splice` removal, so
the LAST element is processed first and the retained enemies keep their
original order; accordingly the tail is processed before the head here. -/
def processEnemies (heroX heroY cameraX : ℚ) :
    List Entity → EnemyLoopState → List Entity × EnemyLoopState
  | [], st => ([], st)
  | e :: rest, st =>
    let r1 := processEnemies heroX heroY cameraX rest st
    let r2 := processEnemy heroX heroY cameraX e r1.2
    match r2.1 with
    | some e2 => (e2 :: r1.1, r2.2)
    | none => (r1.1, r2.2)

/-- The envelope loop of `update` (game.js lines 261-273): reverse
iteration; an envelope is dropped when fully off the trailing edge, or
collected (dropped, +10 score) on hero overlap.  Returns the retained
envelopes in order and the updated score. -/
def processEnvelopes (heroX heroY cameraX : ℚ) :
    List Entity → ℤ → List Entity × ℤ
  | [], score => ([], score)
  | env :: rest, score =>
    let r1 := processEnvelopes heroX heroY cameraX rest score
    if env.x - cameraX + env.width < 0 then r1
    else if rectIntersect heroX heroY HERO_SIZE HERO_SIZE
        (env.x - cameraX) env.y env.width env.height then
      (r1.1, r1.2 + 10)
    else (env :: r1.1, r1.2)

/-- The letter update loop of `update` (game.js lines 276-283): every
letter advances by its speed, then is dropped when its new screen-x
exceeds `canvas.width + 50`. -/
def updateLetters (cameraX canvasW : ℚ) : List Letter → List Letter
  | [] => []
  | l :: rest =>
    let rest2 := updateLetters cameraX canvasW rest
    let moved : Letter := { l with x := l.x + l.speed }
    if moved.x - cameraX > canvasW + 50 then rest2 else moved :: rest2

/-- One simulation tick: the `update(dt)` function of game.js
(lines 187-284).  Returns the state unchanged when the game is over;
otherwise advances camera and hero world-x by `WORLD_SPEED`, runs vertical
physics and the animation timer, runs both spawn channels, then the enemy
loop, the envelope loop and the letter loop, in source order. -/
def update (canvasW canvasH : ℚ) (s : GameState) (dt : ℚ) (r : Rands) : GameState :=
  if s.gameOver then s
  else
    let cameraX2 := s.cameraX + WORLD_SPEED
    let worldX2 := s.hero.worldX + WORLD_SPEED
    let phys := physicsStep canvasH s.hero.y s.hero.vy s.hero.onGround
    let anim := animStep s.hero.frameTimer dt s.hero.frameIndex
    let eT := enemyTimerStep s.enemySpawnTimer dt r.enemyJitter
    let vT := envelopeTimerStep s.envelopeSpawnTimer dt r.envJitter
    let er := processEnemies s.hero.x phys.1 cameraX2
      (enemiesAfterSpawn canvasW canvasH s dt r)
      ⟨s.letters, s.hero.lives, s.hero.score, s.gameOver⟩
    let vr := processEnvelopes s.hero.x phys.1 cameraX2
      (envelopesAfterSpawn canvasW canvasH s dt r) er.2.score
    { hero :=
        { worldX := worldX2
          x := s.hero.x
          y := phys.1
          vy := phys.2.1
          onGround := phys.2.2
          frameIndex := anim.2
          frameTimer := anim.1
          lives := er.2.lives
          score := vr.2 }
      cameraX := cameraX2
      gameOver := er.2.gameOver
      enemies := er.1
      envelopes := vr.1
      letters := updateLetters cameraX2 canvasW er.2.letters
      enemySpawnTimer := eT.1
      envelopeSpawnTimer := vT.1 }

/-- A whole run of ticks: fold `update` over a list of (dt, random draws)
pairs, earliest tick first. -/
def runTicks (canvasW canvasH : ℚ) (s : GameState) : List (ℚ × Rands) → GameState
  | [] => s
  | t :: rest => runTicks canvasW canvasH (update canvasW canvasH s t.1 t.2) rest

/-- An enemy damages the hero during a tick exactly when it is not culled
as off-screen and its screen box overlaps the hero box
(game.js lines 229-244). -/
def hitsHero (heroX heroY cameraX : ℚ) (e : Entity) : Bool :=
  !(decide (e.x - cameraX + e.width < 0)) &&
    rectIntersect heroX heroY HERO_SIZE HERO_SIZE (e.x - cameraX) e.y e.width e.height

/-- Two intervals of origins `aX`, `bX` and lengths `aW`, `bW` overlap with
positive length. -/
def PositiveOverlap (aX aW bX bW : ℚ) : Prop :=
  max aX bX < min (aX + aW) (bX + bW)

/-- The hero-physics fields of the updated state are exactly the components
of `physicsStep` whenever the game is not over. -/
theorem update_physics (canvasW canvasH dt : ℚ) (s : GameState) (r : Rands)
    (hg : s.gameOver = false) :
    (update canvasW canvasH s dt r).hero.y
        = (physicsStep canvasH s.hero.y s.hero.vy s.hero.onGround).1 ∧
    (update canvasW canvasH s dt r).hero.vy
        = (physicsStep canvasH s.hero.y s.hero.vy s.hero.onGround).2.1 ∧
    (update canvasW canvasH s dt r).hero.onGround
        = (physicsStep canvasH s.hero.y s.hero.vy s.hero.onGround).2.2 := by
  simp [update, hg]

/-- **C4**: the axis-aligned rectangle intersection test returns true exactly
when the two rectangles (positive widths and heights) have positive overlap
on both axes; touching edges (here the right edge of the first box on the
left edge of the second) are non-colliding; and the function is pure, so
repeated calls with identical arguments yield identical results. -/
theorem claim4_rectIntersect_correct (aX aY aW aH bX bY bW bH : ℚ)
    (haW : 0 < aW) (haH : 0 < aH) (hbW : 0 < bW) (hbH : 0 < bH) :
    (rectIntersect aX aY aW aH bX bY bW bH = true ↔
      (PositiveOverlap aX aW bX bW ∧ PositiveOverlap aY aH bY bH)) ∧
    (aX + aW = bX → rectIntersect aX aY aW aH bX bY bW bH = false) ∧
    rectIntersect aX aY aW aH bX bY bW bH = rectIntersect aX aY aW aH bX bY bW bH := by
  refine ⟨?_, ?_, rfl⟩
  · constructor
    · intro h
      simp only [rectIntersect, Bool.and_eq_true, decide_eq_true_eq] at h
      obtain ⟨⟨⟨h1, h2⟩, h3⟩, h4⟩ := h
      constructor
      · simp only [PositiveOverlap, lt_min_iff, max_lt_iff]
        exact ⟨⟨by linarith, h2⟩, h1, by linarith⟩
      · simp only [PositiveOverlap, lt_min_iff, max_lt_iff]
        exact ⟨⟨by linarith, h4⟩, h3, by linarith⟩
    · intro h
      obtain ⟨hx, hy⟩ := h
      simp only [PositiveOverlap, lt_min_iff, max_lt_iff] at hx hy
      obtain ⟨⟨_, h2⟩, h1, _⟩ := hx
      obtain ⟨⟨_, h4⟩, h3, _⟩ := hy
      simp only [rectIntersect, Bool.and_eq_true, decide_eq_true_eq]
      exact ⟨⟨⟨h1, h2⟩, h3⟩, h4⟩
  · intro h
    simp [rectIntersect, h]

/-- Witness for C4 at two overlapping unit squares. -/
theorem claim4_rectIntersect_witness :
    (0 : ℚ) < 2 ∧
    ((rectIntersect 0 0 2 2 1 1 2 2 = true ↔
        (PositiveOverlap 0 2 1 2 ∧ PositiveOverlap 0 2 1 2)) ∧
      ((0 : ℚ) + 2 = 1 → rectIntersect 0 0 2 2 1 1 2 2 = false) ∧
      rectIntersect 0 0 2 2 1 1 2 2 = rectIntersect 0 0 2 2 1 1 2 2) :=
  ⟨by norm_num,
    claim4_rectIntersect_correct 0 0 2 2 1 1 2 2
      (by norm_num) (by norm_num) (by norm_num) (by norm_num)⟩

/-- **C5**: on every tick executed while the game is active, the camera
offset and the hero's world-x each advance by exactly `WORLD_SPEED`, their
difference is unchanged, and the hero's screen-x is unchanged. -/
theorem claim5_camera_lockstep (canvasW canvasH dt : ℚ) (s : GameState) (r : Rands)
    (hg : s.gameOver = false) :
    (update canvasW canvasH s dt r).cameraX = s.cameraX + WORLD_SPEED ∧
    (update canvasW canvasH s dt r).hero.worldX = s.hero.worldX + WORLD_SPEED ∧
    (update canvasW canvasH s dt r).hero.worldX - (update canvasW canvasH s dt r).cameraX
        = s.hero.worldX - s.cameraX ∧
    (update canvasW canvasH s dt r).hero.x = s.hero.x := by
  have h1 : (update canvasW canvasH s dt r).cameraX = s.cameraX + WORLD_SPEED := by
    simp [update, hg]
  have h2 : (update canvasW canvasH s dt r).hero.worldX = s.hero.worldX + WORLD_SPEED := by
    simp [update, hg]
  have h3 : (update canvasW canvasH s dt r).hero.x = s.hero.x := by
    simp [update, hg]
  exact ⟨h1, h2, by rw [h1, h2]; ring, h3⟩

/-- The all-zero random record, used for concrete runs. -/
def rZero : Rands := ⟨0, 0, 0, 0, 0⟩

/-- Witness for C5: one tick from the initial state. -/
theorem claim5_camera_lockstep_witness :
    (initState 600).gameOver = false ∧
    ((update 800 600 (initState 600) 1 rZero).cameraX = (initState 600).cameraX + WORLD_SPEED ∧
      (update 800 600 (initState 600) 1 rZero).hero.worldX
          = (initState 600).hero.worldX + WORLD_SPEED ∧
      (update 800 600 (initState 600) 1 rZero).hero.worldX
            - (update 800 600 (initState 600) 1 rZero).cameraX
          = (initState 600).hero.worldX - (initState 600).cameraX ∧
      (update 800 600 (initState 600) 1 rZero).hero.x = (initState 600).hero.x) :=
  ⟨rfl, claim5_camera_lockstep 800 600 1 (initState 600) rZero rfl⟩

/-- **C7**: once the game-over state is entered, every subsequent tick — in
fact any finite sequence of further ticks, whatever the elapsed times and
random draws — leaves the entire simulation state unchanged. -/
theorem claim7_defeated_frozen (canvasW canvasH : ℚ) (s : GameState)
    (h : s.gameOver = true) (ticks : List (ℚ × Rands)) :
    runTicks canvasW canvasH s ticks = s := by
  induction ticks with
  | nil => rfl
  | cons t rest ih =>
    have hu : update canvasW canvasH s t.1 t.2 = s := by simp [update, h]
    simpa [runTicks, hu] using ih

/-- A defeated state used as the C7 witness input. -/
def stateOver : GameState :=
  { initState 600 with gameOver := true }

/-- Witness for C7: two further ticks on a defeated state change nothing. -/
theorem claim7_defeated_frozen_witness :
    stateOver.gameOver = true ∧
    runTicks 800 600 stateOver [(1, rZero), (4, rZero)] = stateOver :=
  ⟨rfl, claim7_defeated_frozen 800 600 stateOver rfl [(1, rZero), (4, rZero)]⟩

/-- **C2 (amended)**: during an active tick the clamp — position set to the
ground line, velocity set to 0, ground flag set — fires exactly when the
integrated vertical position strictly exceeds the ground line; when the
integrated position equals the ground line exactly, the position is at the
ground line but velocity and ground flag are left unchanged; in either case
the post-tick position never exceeds the ground line. -/
theorem claim2_ground_clamp_amended (canvasW canvasH dt : ℚ) (s : GameState) (r : Rands)
    (hg : s.gameOver = false) :
    (s.hero.y + (s.hero.vy + GRAVITY) > canvasH - GROUND_HEIGHT - HERO_SIZE →
      (update canvasW canvasH s dt r).hero.y = canvasH - GROUND_HEIGHT - HERO_SIZE ∧
      (update canvasW canvasH s dt r).hero.vy = 0 ∧
      (update canvasW canvasH s dt r).hero.onGround = true) ∧
    (s.hero.y + (s.hero.vy + GRAVITY) = canvasH - GROUND_HEIGHT - HERO_SIZE →
      (update canvasW canvasH s dt r).hero.y = canvasH - GROUND_HEIGHT - HERO_SIZE ∧
      (update canvasW canvasH s dt r).hero.vy = s.hero.vy + GRAVITY ∧
      (update canvasW canvasH s dt r).hero.onGround = s.hero.onGround) ∧
    (update canvasW canvasH s dt r).hero.y ≤ canvasH - GROUND_HEIGHT - HERO_SIZE := by
  obtain ⟨hy, hvy, hog⟩ := update_physics canvasW canvasH dt s r hg
  by_cases hcl : s.hero.y + (s.hero.vy + GRAVITY) > canvasH - GROUND_HEIGHT - HERO_SIZE
  · have hp : physicsStep canvasH s.hero.y s.hero.vy s.hero.onGround
        = (canvasH - GROUND_HEIGHT - HERO_SIZE, 0, true) := by
      simp only [physicsStep]
      rw [if_pos hcl]
    rw [hp] at hy hvy hog
    exact ⟨fun _ => ⟨hy, hvy, hog⟩, fun heq => absurd heq (by intro heq; linarith),
      le_of_eq hy⟩
  · have hp : physicsStep canvasH s.hero.y s.hero.vy s.hero.onGround
        = (s.hero.y + (s.hero.vy + GRAVITY), s.hero.vy + GRAVITY, s.hero.onGround) := by
      simp only [physicsStep]
      rw [if_neg hcl]
    rw [hp] at hy hvy hog
    refine ⟨fun hx => absurd hx hcl, fun heq => ⟨by rw [hy, heq], hvy, hog⟩, ?_⟩
    rw [hy]
    exact le_of_not_lt hcl

/-- Witness for C2 at a grounded hero: the integrated position 440.5 is
strictly below the ground line 440 of a 600-pixel canvas, so the clamp
branch fires. -/
theorem claim2_ground_clamp_witness :
    (initState 600).gameOver = false ∧
    (((initState 600).hero.y + ((initState 600).hero.vy + GRAVITY)
          > 600 - GROUND_HEIGHT - HERO_SIZE →
        (update 800 600 (initState 600) 1 rZero).hero.y = 600 - GROUND_HEIGHT - HERO_SIZE ∧
        (update 800 600 (initState 600) 1 rZero).hero.vy = 0 ∧
        (update 800 600 (initState 600) 1 rZero).hero.onGround = true) ∧
      ((initState 600).hero.y + ((initState 600).hero.vy + GRAVITY)
          = 600 - GROUND_HEIGHT - HERO_SIZE →
        (update 800 600 (initState 600) 1 rZero).hero.y = 600 - GROUND_HEIGHT - HERO_SIZE ∧
        (update 800 600 (initState 600) 1 rZero).hero.vy
            = (initState 600).hero.vy + GRAVITY ∧
        (update 800 600 (initState 600) 1 rZero).hero.onGround
            = (initState 600).hero.onGround) ∧
      (update 800 600 (initState 600) 1 rZero).hero.y ≤ 600 - GROUND_HEIGHT - HERO_SIZE) :=
  ⟨rfl, claim2_ground_clamp_amended 800 600 1 (initState 600) rZero rfl⟩

/-- An airborne hero whose integrated position lands exactly on the ground
line: y 439, vy 1/2, so y + (vy + GRAVITY) = 440 = 600 - 80 - 80. -/
def stateTouch : GameState :=
  { hero := { worldX := 0, x := 100, y := 439, vy := 1/2, onGround := false,
              frameIndex := 0, frameTimer := 0, lives := 3, score := 0 },
    cameraX := 0, gameOver := false, enemies := [], envelopes := [], letters := [],
    enemySpawnTimer := 0, envelopeSpawnTimer := 0 }

/-- Counterexample to C2 as stated: the integrated vertical position reaches
the ground line exactly, yet after the tick the vertical velocity is 1, not
0, and the ground-contact flag is still clear. -/
theorem claim2_equality_counterexample :
    stateTouch.gameOver = false ∧
    stateTouch.hero.y + (stateTouch.hero.vy + GRAVITY) = 600 - GROUND_HEIGHT - HERO_SIZE ∧
    ¬ ((update 800 600 stateTouch 1 rZero).hero.vy = 0 ∧
        (update 800 600 stateTouch 1 rZero).hero.onGround = true) := by
  with_unfolding_all decide

/-- **C10**: the elapsed-time argument of a tick does not influence the
camera or the hero's motion: with the same state and the same random draws,
two ticks with different `dt` values agree on the camera offset, the hero's
world-x, vertical position, vertical velocity and ground-contact flag. -/
theorem claim10_dt_noninterference (canvasW canvasH dt1 dt2 : ℚ)
    (s : GameState) (r : Rands) :
    (update canvasW canvasH s dt1 r).cameraX = (update canvasW canvasH s dt2 r).cameraX ∧
    (update canvasW canvasH s dt1 r).hero.worldX
        = (update canvasW canvasH s dt2 r).hero.worldX ∧
    (update canvasW canvasH s dt1 r).hero.y = (update canvasW canvasH s dt2 r).hero.y ∧
    (update canvasW canvasH s dt1 r).hero.vy = (update canvasW canvasH s dt2 r).hero.vy ∧
    (update canvasW canvasH s dt1 r).hero.onGround
        = (update canvasW canvasH s dt2 r).hero.onGround := by
  by_cases hg : s.gameOver = true
  · simp [update, hg]
  · simp only [Bool.not_eq_true] at hg
    simp [update, hg]

/-- The loop state after processing `e :: rest` is the loop state after
processing `rest` (the source iterates backwards) pushed through `e`. -/
theorem processEnemies_cons_snd (hx hy cx : ℚ) (e : Entity) (rest : List Entity)
    (st : EnemyLoopState) :
    (processEnemies hx hy cx (e :: rest) st).2
      = (processEnemy hx hy cx e (processEnemies hx hy cx rest st).2).2 := by
  simp only [processEnemies]
  rcases hM : (processEnemy hx hy cx e (processEnemies hx hy cx rest st).2).1 with _ | e2 <;>
    simp [hM]

/-- Processing a single enemy decrements lives exactly when the enemy is an
on-screen hero hit, and leaves lives alone otherwise. -/
theorem processEnemy_lives (hx hy cx : ℚ) (e : Entity) (st : EnemyLoopState) :
    (processEnemy hx hy cx e st).2.lives
      = st.lives - (if hitsHero hx hy cx e then 1 else 0) := by
  unfold processEnemy hitsHero
  by_cases h1 : e.x - cx + e.width < 0
  · simp [h1]
  · by_cases h2 : rectIntersect hx hy HERO_SIZE HERO_SIZE
        (e.x - cx) e.y e.width e.height = true
    · simp [h1, h2]
    · rcases hM : removeLastOverlap
          (fun l => rectIntersect (l.x - cx) l.y l.width l.height
            (e.x - cx) e.y e.width e.height) st.letters with _ | ls2 <;>
        simp [h1, h2, hM]

/-- The enemy loop subtracts from lives exactly the number of on-screen
enemies whose box overlaps the hero box, with no lower bound. -/
theorem processEnemies_lives (hx hy cx : ℚ) (es : List Entity) (st : EnemyLoopState) :
    (processEnemies hx hy cx es st).2.lives
      = st.lives - (es.countP (hitsHero hx hy cx) : ℤ) := by
  induction es generalizing st with
  | nil => simp [processEnemies]
  | cons e rest ih =>
    rw [processEnemies_cons_snd, processEnemy_lives, ih, List.countP_cons]
    by_cases h : hitsHero hx hy cx e = true
    · simp only [h, if_true, Nat.cast_add, Nat.cast_one]
      ring
    · simp [h]

/-- Processing one enemy can only increase the score. -/
theorem processEnemy_score_le (hx hy cx : ℚ) (e : Entity) (st : EnemyLoopState) :
    st.score ≤ (processEnemy hx hy cx e st).2.score := by
  unfold processEnemy
  by_cases h1 : e.x - cx + e.width < 0
  · rw [if_pos h1]
  · rw [if_neg h1]
    by_cases h2 : rectIntersect hx hy HERO_SIZE HERO_SIZE
        (e.x - cx) e.y e.width e.height = true
    · rw [if_pos h2]
    · rw [if_neg h2]
      rcases hM : removeLastOverlap
          (fun l => rectIntersect (l.x - cx) l.y l.width l.height
            (e.x - cx) e.y e.width e.height) st.letters with _ | ls2 <;>
        simp [hM]

/-- The enemy loop can only increase the score. -/
theorem processEnemies_score_le (hx hy cx : ℚ) (es : List Entity) (st : EnemyLoopState) :
    st.score ≤ (processEnemies hx hy cx es st).2.score := by
  induction es generalizing st with
  | nil => exact le_refl _
  | cons e rest ih =>
    rw [processEnemies_cons_snd]
    exact le_trans (ih st) (processEnemy_score_le hx hy cx e _)

/-- The envelope loop can only increase the score. -/
theorem processEnvelopes_score_le (hx hy cx : ℚ) (es : List Entity) (sc : ℤ) :
    sc ≤ (processEnvelopes hx hy cx es sc).2 := by
  induction es generalizing sc with
  | nil => exact le_refl _
  | cons env rest ih =>
    simp only [processEnvelopes]
    by_cases h1 : env.x - cx + env.width < 0
    · rw [if_pos h1]; exact ih sc
    · rw [if_neg h1]
      by_cases h2 : rectIntersect hx hy HERO_SIZE HERO_SIZE
          (env.x - cx) env.y env.width env.height = true
      · rw [if_pos h2]
        have hstep : (processEnvelopes hx hy cx rest sc).2
            ≤ (processEnvelopes hx hy cx rest sc).2 + 10 := by linarith
        exact le_trans (ih sc) hstep
      · rw [if_neg h2]; exact ih sc

/-- When the reverse letter scan removes a letter, the remaining list is one
element shorter and is a sublist of the original. -/
theorem removeLastOverlap_spec (p : Letter → Bool) (ls ls2 : List Letter)
    (h : removeLastOverlap p ls = some ls2) :
    ls2.length + 1 = ls.length ∧ ls2.Sublist ls := by
  induction ls generalizing ls2 with
  | nil => simp [removeLastOverlap] at h
  | cons l rest ih =>
    simp only [removeLastOverlap] at h
    rcases hM : removeLastOverlap p rest with _ | rs
    · rw [hM] at h
      by_cases hp : p l = true
      · rw [if_pos hp] at h
        obtain rfl : rest = ls2 := by injection h
        exact ⟨rfl, (List.Sublist.refl _).cons l⟩
      · rw [if_neg hp] at h
        cases h
    · rw [hM] at h
      obtain rfl : l :: rs = ls2 := by injection h
      obtain ⟨hlen, hsub⟩ := ih rs hM
      constructor
      · simpa using hlen
      · exact hsub.cons₂ l

/-- Processing one enemy either leaves letters and score alone, or removes
exactly one letter and adds exactly 20 points. -/
theorem processEnemy_score_letters (hx hy cx : ℚ) (e : Entity) (st : EnemyLoopState) :
    (processEnemy hx hy cx e st).2.score
          + 20 * (((processEnemy hx hy cx e st).2.letters).length : ℤ)
        = st.score + 20 * (st.letters.length : ℤ) ∧
    ((processEnemy hx hy cx e st).2.letters).Sublist st.letters := by
  unfold processEnemy
  by_cases h1 : e.x - cx + e.width < 0
  · rw [if_pos h1]; exact ⟨rfl, List.Sublist.refl _⟩
  · rw [if_neg h1]
    by_cases h2 : rectIntersect hx hy HERO_SIZE HERO_SIZE
        (e.x - cx) e.y e.width e.height = true
    · rw [if_pos h2]; exact ⟨rfl, List.Sublist.refl _⟩
    · rw [if_neg h2]
      rcases hM : removeLastOverlap
          (fun l => rectIntersect (l.x - cx) l.y l.width l.height
            (e.x - cx) e.y e.width e.height) st.letters with _ | ls2
      · exact ⟨rfl, List.Sublist.refl _⟩
      · obtain ⟨hlen, hsub⟩ := removeLastOverlap_spec _ _ _ hM
        refine ⟨?_, hsub⟩
        show st.score + 20 + 20 * ((ls2.length : ℕ) : ℤ) = st.score + 20 * (st.letters.length : ℤ)
        have hc : ((ls2.length : ℕ) : ℤ) + 1 = (st.letters.length : ℤ) := by
          exact_mod_cast hlen
        linarith

/-- **C9**: across a whole enemy loop, the retained letters are a sublist of
the incoming letters and the score rises by exactly 20 points per removed
letter.  Each projectile-hostile resolution therefore consumes one distinct
projectile, so a single projectile can remove at most one hostile per tick:
once resolved, the removed projectile is no longer in the list that later
hostiles are tested against. -/
theorem claim9_projectile_single_kill (hx hy cx : ℚ) (es : List Entity)
    (st : EnemyLoopState) :
    ((processEnemies hx hy cx es st).2.letters).Sublist st.letters ∧
    (processEnemies hx hy cx es st).2.score
          + 20 * (((processEnemies hx hy cx es st).2.letters).length : ℤ)
        = st.score + 20 * (st.letters.length : ℤ) := by
  induction es generalizing st with
  | nil => exact ⟨List.Sublist.refl _, rfl⟩
  | cons e rest ih =>
    rw [processEnemies_cons_snd]
    obtain ⟨hsub1, heq1⟩ := ih st
    obtain ⟨heq2, hsub2⟩ :=
      processEnemy_score_letters hx hy cx e (processEnemies hx hy cx rest st).2
    exact ⟨hsub2.trans hsub1, by linarith⟩

/-- **C6**: for a hostile that is on screen and overlaps the player, the
per-hostile step removes the hostile, decrements lives by one, leaves the
score AND the projectile list untouched whatever projectiles are in flight
(so no projectile test is performed for it), and sets game over exactly
when lives reach zero: the player-collision check precedes the projectile
check. -/
theorem claim6_player_collision_first (heroX heroY cameraX : ℚ) (e : Entity)
    (st : EnemyLoopState)
    (hon : ¬ e.x - cameraX + e.width < 0)
    (hhit : rectIntersect heroX heroY HERO_SIZE HERO_SIZE
        (e.x - cameraX) e.y e.width e.height = true) :
    processEnemy heroX heroY cameraX e st
      = (none, ⟨st.letters, st.lives - 1, st.score,
          if st.lives - 1 ≤ 0 then true else st.gameOver⟩) := by
  unfold processEnemy
  rw [if_neg hon, if_pos hhit]

/-- A hostile sitting exactly on the hero box (camera at 0). -/
def enemyBoth : Entity := ⟨100, 440, 80, 80⟩

/-- A projectile overlapping that same hostile. -/
def letterBoth : Letter := ⟨100, 440, 20, 20, 8⟩

/-- Loop state holding that projectile, with one life left. -/
def stBoth : EnemyLoopState := ⟨[letterBoth], 1, 0, false⟩

/-- Witness for C6: the hostile overlaps the player and a projectile at
once; the step resolves the player collision, keeps the projectile list and
the score unchanged, and enters game over since lives reach 0. -/
theorem claim6_player_collision_first_witness :
    (¬ enemyBoth.x - 0 + enemyBoth.width < 0) ∧
    rectIntersect 100 440 HERO_SIZE HERO_SIZE
        (enemyBoth.x - 0) enemyBoth.y enemyBoth.width enemyBoth.height = true ∧
    rectIntersect (letterBoth.x - 0) letterBoth.y letterBoth.width letterBoth.height
        (enemyBoth.x - 0) enemyBoth.y enemyBoth.width enemyBoth.height = true ∧
    processEnemy 100 440 0 enemyBoth stBoth
      = (none, ⟨stBoth.letters, stBoth.lives - 1, stBoth.score,
          if stBoth.lives - 1 ≤ 0 then true else stBoth.gameOver⟩) :=
  ⟨by with_unfolding_all decide, by with_unfolding_all decide,
    by with_unfolding_all decide,
    claim6_player_collision_first 100 440 0 enemyBoth stBoth
      (by with_unfolding_all decide) (by with_unfolding_all decide)⟩

/-- An enemy kept by the per-enemy step is the same enemy and is not fully
off the trailing edge. -/
theorem processEnemy_keep (hx hy cx : ℚ) (e : Entity) (st : EnemyLoopState) (e2 : Entity)
    (h : (processEnemy hx hy cx e st).1 = some e2) :
    e2 = e ∧ ¬ e.x - cx + e.width < 0 := by
  unfold processEnemy at h
  by_cases h1 : e.x - cx + e.width < 0
  · rw [if_pos h1] at h; cases h
  · rw [if_neg h1] at h
    by_cases h2 : rectIntersect hx hy HERO_SIZE HERO_SIZE
        (e.x - cx) e.y e.width e.height = true
    · rw [if_pos h2] at h; cases h
    · rw [if_neg h2] at h
      rcases hM : removeLastOverlap
          (fun l => rectIntersect (l.x - cx) l.y l.width l.height
            (e.x - cx) e.y e.width e.height) st.letters with _ | ls2 <;>
        rw [hM] at h
      · obtain rfl : e = e2 := by injection h
        exact ⟨rfl, h1⟩
      · cases h

/-- Every enemy retained by the enemy loop is not fully off the trailing
edge. -/
theorem processEnemies_onscreen (hx hy cx : ℚ) (es : List Entity) (st : EnemyLoopState) :
    ∀ e ∈ (processEnemies hx hy cx es st).1, ¬ e.x - cx + e.width < 0 := by
  induction es generalizing st with
  | nil => intro f hf; simp [processEnemies] at hf
  | cons e rest ih =>
    intro f hf
    simp only [processEnemies] at hf
    rcases hM : (processEnemy hx hy cx e (processEnemies hx hy cx rest st).2).1 with _ | e2 <;>
      rw [hM] at hf
    · exact ih st f hf
    · rcases List.mem_cons.mp hf with hfe | hfr
      · obtain ⟨he2, hon⟩ := processEnemy_keep hx hy cx e _ e2 hM
        rw [hfe, he2]
        exact hon
      · exact ih st f hfr

/-- Every envelope retained by the envelope loop is not fully off the
trailing edge. -/
theorem processEnvelopes_onscreen (hx hy cx : ℚ) (es : List Entity) (sc : ℤ) :
    ∀ e ∈ (processEnvelopes hx hy cx es sc).1, ¬ e.x - cx + e.width < 0 := by
  induction es generalizing sc with
  | nil => intro f hf; simp [processEnvelopes] at hf
  | cons env rest ih =>
    intro f hf
    simp only [processEnvelopes] at hf
    by_cases h1 : env.x - cx + env.width < 0
    · rw [if_pos h1] at hf
      exact ih sc f hf
    · rw [if_neg h1] at hf
      by_cases h2 : rectIntersect hx hy HERO_SIZE HERO_SIZE
          (env.x - cx) env.y env.width env.height = true
      · rw [if_pos h2] at hf
        exact ih sc f hf
      · rw [if_neg h2] at hf
        rcases List.mem_cons.mp hf with hfe | hfr
        · rw [hfe]; exact h1
        · exact ih sc f hfr

/-- Every letter retained by the letter loop has already moved and its new
screen-x is at most the viewport width plus the 50-pixel margin. -/
theorem updateLetters_bound (cx cw : ℚ) (ls : List Letter) :
    ∀ l ∈ updateLetters cx cw ls, l.x - cx ≤ cw + 50 := by
  induction ls with
  | nil => intro l hl; simp [updateLetters] at hl
  | cons a rest ih =>
    intro l hl
    simp only [updateLetters] at hl
    by_cases h : a.x + a.speed - cx > cw + 50
    · rw [if_pos h] at hl
      exact ih l hl
    · rw [if_neg h] at hl
      rcases List.mem_cons.mp hl with hle | hlr
      · rw [hle]
        exact le_of_not_lt h
      · exact ih l hlr

/-- **C3 (amended)**: after an active tick no retained hostile or
collectible is fully off the trailing edge (screen-x + width is
nonnegative), and no retained projectile has screen-x beyond the viewport
width plus the 50-pixel margin; a projectile may thus sit up to 50 pixels
fully past the leading edge and still be retained. -/
theorem claim3_onscreen_amended (canvasW canvasH dt : ℚ) (s : GameState) (r : Rands)
    (hg : s.gameOver = false) :
    (∀ e ∈ (update canvasW canvasH s dt r).enemies,
        ¬ e.x - (update canvasW canvasH s dt r).cameraX + e.width < 0) ∧
    (∀ e ∈ (update canvasW canvasH s dt r).envelopes,
        ¬ e.x - (update canvasW canvasH s dt r).cameraX + e.width < 0) ∧
    (∀ l ∈ (update canvasW canvasH s dt r).letters,
        l.x - (update canvasW canvasH s dt r).cameraX ≤ canvasW + 50) := by
  have hcam : (update canvasW canvasH s dt r).cameraX = s.cameraX + WORLD_SPEED := by
    simp [update, hg]
  have hen : (update canvasW canvasH s dt r).enemies
      = (processEnemies s.hero.x (physicsStep canvasH s.hero.y s.hero.vy s.hero.onGround).1
          (s.cameraX + WORLD_SPEED) (enemiesAfterSpawn canvasW canvasH s dt r)
          ⟨s.letters, s.hero.lives, s.hero.score, s.gameOver⟩).1 := by
    simp [update, hg]
  have hev : (update canvasW canvasH s dt r).envelopes
      = (processEnvelopes s.hero.x (physicsStep canvasH s.hero.y s.hero.vy s.hero.onGround).1
          (s.cameraX + WORLD_SPEED) (envelopesAfterSpawn canvasW canvasH s dt r)
          (processEnemies s.hero.x (physicsStep canvasH s.hero.y s.hero.vy s.hero.onGround).1
            (s.cameraX + WORLD_SPEED) (enemiesAfterSpawn canvasW canvasH s dt r)
            ⟨s.letters, s.hero.lives, s.hero.score, s.gameOver⟩).2.score).1 := by
    simp [update, hg]
  have hle : (update canvasW canvasH s dt r).letters
      = updateLetters (s.cameraX + WORLD_SPEED) canvasW
          (processEnemies s.hero.x (physicsStep canvasH s.hero.y s.hero.vy s.hero.onGround).1
            (s.cameraX + WORLD_SPEED) (enemiesAfterSpawn canvasW canvasH s dt r)
            ⟨s.letters, s.hero.lives, s.hero.score, s.gameOver⟩).2.letters := by
    simp [update, hg]
  refine ⟨?_, ?_, ?_⟩
  · rw [hen, hcam]
    exact processEnemies_onscreen _ _ _ _ _
  · rw [hev, hcam]
    exact processEnvelopes_onscreen _ _ _ _ _
  · rw [hle, hcam]
    exact updateLetters_bound _ _ _

/-- Witness for C3: one active tick from the initial state. -/
theorem claim3_onscreen_witness :
    (initState 600).gameOver = false ∧
    ((∀ e ∈ (update 800 600 (initState 600) 1 rZero).enemies,
        ¬ e.x - (update 800 600 (initState 600) 1 rZero).cameraX + e.width < 0) ∧
      (∀ e ∈ (update 800 600 (initState 600) 1 rZero).envelopes,
        ¬ e.x - (update 800 600 (initState 600) 1 rZero).cameraX + e.width < 0) ∧
      (∀ l ∈ (update 800 600 (initState 600) 1 rZero).letters,
        l.x - (update 800 600 (initState 600) 1 rZero).cameraX ≤ 800 + 50)) :=
  ⟨rfl, claim3_onscreen_amended 800 600 1 (initState 600) rZero rfl⟩

/-- An active state holding one letter that the tick moves to screen-x 835,
fully past the right edge of an 800-pixel viewport but inside the margin. -/
def stateLetter : GameState :=
  { hero := { worldX := 0, x := 100, y := 440, vy := 0, onGround := true,
              frameIndex := 0, frameTimer := 0, lives := 3, score := 0 },
    cameraX := 0, gameOver := false, enemies := [], envelopes := [],
    letters := [⟨830, 100, 20, 20, 8⟩],
    enemySpawnTimer := 0, envelopeSpawnTimer := 0 }

/-- Counterexample to C3 as stated: after the tick the projectile list
retains a letter whose screen-x exceeds the viewport width 800, i.e. an
entity lying fully past the leading edge. -/
theorem claim3_letter_counterexample :
    stateLetter.gameOver = false ∧
    ((update 800 600 stateLetter 1 rZero).letters.any
        fun l => decide (800 < l.x - (update 800 600 stateLetter 1 rZero).cameraX)) = true := by
  with_unfolding_all decide

/-- **C1 (amended)**: after any tick the score is nonnegative whenever it
was before, and lives stay nonnegative PROVIDED the number of on-screen
hostiles overlapping the player during the tick does not exceed the lives
count — in particular whenever at most one hostile overlaps the player.
When several hostiles overlap the player in one tick, lives drop by one per
hostile and can become negative. -/
theorem claim1_lives_score_amended (canvasW canvasH dt : ℚ) (s : GameState) (r : Rands)
    (hscore : 0 ≤ s.hero.score)
    (hlives : (((enemiesAfterSpawn canvasW canvasH s dt r).countP
        (hitsHero s.hero.x (physicsStep canvasH s.hero.y s.hero.vy s.hero.onGround).1
          (s.cameraX + WORLD_SPEED)) : ℕ) : ℤ) ≤ s.hero.lives) :
    0 ≤ (update canvasW canvasH s dt r).hero.lives ∧
    0 ≤ (update canvasW canvasH s dt r).hero.score := by
  by_cases hg : s.gameOver = true
  · have hu : update canvasW canvasH s dt r = s := by simp [update, hg]
    rw [hu]
    have hnn : (0 : ℤ) ≤ (((enemiesAfterSpawn canvasW canvasH s dt r).countP
        (hitsHero s.hero.x (physicsStep canvasH s.hero.y s.hero.vy s.hero.onGround).1
          (s.cameraX + WORLD_SPEED)) : ℕ) : ℤ) := Int.ofNat_nonneg _
    exact ⟨le_trans hnn hlives, hscore⟩
  · simp only [Bool.not_eq_true] at hg
    have hl : (update canvasW canvasH s dt r).hero.lives
        = (processEnemies s.hero.x (physicsStep canvasH s.hero.y s.hero.vy s.hero.onGround).1
            (s.cameraX + WORLD_SPEED) (enemiesAfterSpawn canvasW canvasH s dt r)
            ⟨s.letters, s.hero.lives, s.hero.score, s.gameOver⟩).2.lives := by
      simp [update, hg]
    have hs : (update canvasW canvasH s dt r).hero.score
        = (processEnvelopes s.hero.x (physicsStep canvasH s.hero.y s.hero.vy s.hero.onGround).1
            (s.cameraX + WORLD_SPEED) (envelopesAfterSpawn canvasW canvasH s dt r)
            (processEnemies s.hero.x
              (physicsStep canvasH s.hero.y s.hero.vy s.hero.onGround).1
              (s.cameraX + WORLD_SPEED) (enemiesAfterSpawn canvasW canvasH s dt r)
              ⟨s.letters, s.hero.lives, s.hero.score, s.gameOver⟩).2.score).2 := by
      simp [update, hg]
    constructor
    · rw [hl, processEnemies_lives]
      have hst : (EnemyLoopState.mk s.letters s.hero.lives s.hero.score s.gameOver).lives
          = s.hero.lives := rfl
      rw [hst]
      linarith
    · rw [hs]
      have h1 : s.hero.score
          ≤ (processEnemies s.hero.x
              (physicsStep canvasH s.hero.y s.hero.vy s.hero.onGround).1
              (s.cameraX + WORLD_SPEED) (enemiesAfterSpawn canvasW canvasH s dt r)
              ⟨s.letters, s.hero.lives, s.hero.score, s.gameOver⟩).2.score :=
        processEnemies_score_le _ _ _ _ _
      have h2 := processEnvelopes_score_le s.hero.x
        (physicsStep canvasH s.hero.y s.hero.vy s.hero.onGround).1
        (s.cameraX + WORLD_SPEED) (envelopesAfterSpawn canvasW canvasH s dt r)
        (processEnemies s.hero.x
          (physicsStep canvasH s.hero.y s.hero.vy s.hero.onGround).1
          (s.cameraX + WORLD_SPEED) (enemiesAfterSpawn canvasW canvasH s dt r)
          ⟨s.letters, s.hero.lives, s.hero.score, s.gameOver⟩).2.score
      linarith

/-- Witness for C1 at the initial state: no hostile overlaps the player, so
both counters stay nonnegative after a tick. -/
theorem claim1_lives_score_witness :
    (0 : ℤ) ≤ (initState 600).hero.score ∧
    (((enemiesAfterSpawn 800 600 (initState 600) 1 rZero).countP
        (hitsHero (initState 600).hero.x
          (physicsStep 600 (initState 600).hero.y (initState 600).hero.vy
            (initState 600).hero.onGround).1
          ((initState 600).cameraX + WORLD_SPEED)) : ℤ) ≤ (initState 600).hero.lives ∧
    0 ≤ (update 800 600 (initState 600) 1 rZero).hero.lives ∧
    0 ≤ (update 800 600 (initState 600) 1 rZero).hero.score) :=
  ⟨by with_unfolding_all decide,
    by with_unfolding_all decide,
    (claim1_lives_score_amended 800 600 1 (initState 600) rZero
      (by with_unfolding_all decide) (by with_unfolding_all decide)).1,
    (claim1_lives_score_amended 800 600 1 (initState 600) rZero
      (by with_unfolding_all decide) (by with_unfolding_all decide)).2⟩

/-- A concrete reachable run on a 181 by 600 canvas: four ticks of 4
seconds each spawn four enemies whose forward offsets (9, 6, 3, 0 pixels)
exactly compensate the camera motion, so all four share world-x 193; on the
fifth tick all four overlap the hero at once while the hero still has all
3 lives. -/
def quadHitRun : GameState :=
  runTicks 181 600 (initState 600)
    [(4, ⟨0, 3/200, 0, 0, 2/3⟩), (4, ⟨0, 1/100, 0, 0, 2/3⟩),
      (4, ⟨0, 1/200, 0, 0, 2/3⟩), (4, ⟨0, 0, 0, 0, 2/3⟩), (1, rZero)]

/-- Counterexample to C1 as stated: a state reachable from the initial
state by five concrete ticks in which the lives counter is negative — four
hostiles overlap the player in the same tick and each decrements lives,
ending at 3 - 4 = -1. -/
theorem claim1_lives_counterexample : quadHitRun.hero.lives < 0 := by
  with_unfolding_all decide

/-- The spawn-channel contract of one active tick, stated for both
channels: if the accumulated timer exceeds base interval plus jitter, the
stored accumulator is reset to exactly 0 and exactly one entity is appended,
placed at world-x = advanced camera offset + viewport width + a nonnegative
forward offset (and, for the collectible, with y inside the 120-pixel band
ending `ITEM_SIZE` above the ground line); otherwise the accumulator just
grows by `dt * 1000` milliseconds and the list is unchanged. -/
def SpawnTickSpec (canvasW canvasH dt : ℚ) (s : GameState) (r : Rands) : Prop :=
  (s.enemySpawnTimer + dt * 1000 > ENEMY_SPAWN_BASE + r.enemyJitter * 1000 →
      (update canvasW canvasH s dt r).enemySpawnTimer = 0 ∧
      enemiesAfterSpawn canvasW canvasH s dt r
        = s.enemies ++ [spawnEnemy (s.cameraX + WORLD_SPEED) canvasW canvasH r.enemySpawnOff] ∧
      (spawnEnemy (s.cameraX + WORLD_SPEED) canvasW canvasH r.enemySpawnOff).x
        = s.cameraX + WORLD_SPEED + canvasW + r.enemySpawnOff * 600 ∧
      0 ≤ r.enemySpawnOff * 600) ∧
  (¬ s.enemySpawnTimer + dt * 1000 > ENEMY_SPAWN_BASE + r.enemyJitter * 1000 →
      (update canvasW canvasH s dt r).enemySpawnTimer = s.enemySpawnTimer + dt * 1000 ∧
      enemiesAfterSpawn canvasW canvasH s dt r = s.enemies) ∧
  (s.envelopeSpawnTimer + dt * 1000 > ENVELOPE_SPAWN_BASE + r.envJitter * 800 →
      (update canvasW canvasH s dt r).envelopeSpawnTimer = 0 ∧
      envelopesAfterSpawn canvasW canvasH s dt r
        = s.envelopes
            ++ [spawnEnvelope (s.cameraX + WORLD_SPEED) canvasW canvasH r.envSpawnOff r.envYOff] ∧
      (spawnEnvelope (s.cameraX + WORLD_SPEED) canvasW canvasH r.envSpawnOff r.envYOff).x
        = s.cameraX + WORLD_SPEED + canvasW + r.envSpawnOff * 400 ∧
      0 ≤ r.envSpawnOff * 400 ∧
      canvasH - GROUND_HEIGHT - ITEM_SIZE - 120
          < (spawnEnvelope (s.cameraX + WORLD_SPEED) canvasW canvasH r.envSpawnOff r.envYOff).y ∧
      (spawnEnvelope (s.cameraX + WORLD_SPEED) canvasW canvasH r.envSpawnOff r.envYOff).y
          ≤ canvasH - GROUND_HEIGHT - ITEM_SIZE) ∧
  (¬ s.envelopeSpawnTimer + dt * 1000 > ENVELOPE_SPAWN_BASE + r.envJitter * 800 →
      (update canvasW canvasH s dt r).envelopeSpawnTimer = s.envelopeSpawnTimer + dt * 1000 ∧
      envelopesAfterSpawn canvasW canvasH s dt r = s.envelopes)

/-- **C8**: on an active tick each spawn channel accumulates `dt * 1000`
milliseconds; past its randomized threshold it resets its accumulator to 0
and spawns exactly one entity ahead of the camera with a nonnegative
forward offset (collectibles inside a bounded band above the ground line);
otherwise it spawns nothing and keeps accumulating.  The random draws are
assumed in [0, 1) as Math.random guarantees. -/
theorem claim8_spawn_channels (canvasW canvasH dt : ℚ) (s : GameState) (r : Rands)
    (hg : s.gameOver = false)
    (he : 0 ≤ r.enemySpawnOff) (hv : 0 ≤ r.envSpawnOff)
    (hy0 : 0 ≤ r.envYOff) (hy1 : r.envYOff < 1) :
    SpawnTickSpec canvasW canvasH dt s r := by
  have hT : (update canvasW canvasH s dt r).enemySpawnTimer
      = (enemyTimerStep s.enemySpawnTimer dt r.enemyJitter).1 := by simp [update, hg]
  have hV : (update canvasW canvasH s dt r).envelopeSpawnTimer
      = (envelopeTimerStep s.envelopeSpawnTimer dt r.envJitter).1 := by simp [update, hg]
  refine ⟨?_, ?_, ?_, ?_⟩
  · intro h
    have h2 : enemyTimerStep s.enemySpawnTimer dt r.enemyJitter = (0, true) := by
      unfold enemyTimerStep
      rw [if_pos h]
    refine ⟨by rw [hT, h2], ?_, rfl, by positivity⟩
    simp [enemiesAfterSpawn, h2]
  · intro h
    have h2 : enemyTimerStep s.enemySpawnTimer dt r.enemyJitter
        = (s.enemySpawnTimer + dt * 1000, false) := by
      unfold enemyTimerStep
      rw [if_neg h]
    refine ⟨by rw [hT, h2], ?_⟩
    simp [enemiesAfterSpawn, h2]
  · intro h
    have h2 : envelopeTimerStep s.envelopeSpawnTimer dt r.envJitter = (0, true) := by
      unfold envelopeTimerStep
      rw [if_pos h]
    refine ⟨by rw [hV, h2], ?_, rfl, by positivity, ?_, ?_⟩
    · simp [envelopesAfterSpawn, h2]
    · show canvasH - GROUND_HEIGHT - ITEM_SIZE - 120
          < canvasH - GROUND_HEIGHT - ITEM_SIZE - r.envYOff * 120
      linarith
    · show canvasH - GROUND_HEIGHT - ITEM_SIZE - r.envYOff * 120
          ≤ canvasH - GROUND_HEIGHT - ITEM_SIZE
      linarith
  · intro h
    have h2 : envelopeTimerStep s.envelopeSpawnTimer dt r.envJitter
        = (s.envelopeSpawnTimer + dt * 1000, false) := by
      unfold envelopeTimerStep
      rw [if_neg h]
    refine ⟨by rw [hV, h2], ?_⟩
    simp [envelopesAfterSpawn, h2]

/-- The random draws for the C8 witness tick. -/
def rSpawn : Rands := ⟨0, 0, 0, 0, 1/2⟩

/-- Witness for C8: a 4-second tick from the initial state exceeds both
spawn thresholds, so both branches of the contract are exercised. -/
theorem claim8_spawn_channels_witness :
    (initState 600).gameOver = false ∧
    (0 : ℚ) ≤ rSpawn.enemySpawnOff ∧ (0 : ℚ) ≤ rSpawn.envSpawnOff ∧
    (0 : ℚ) ≤ rSpawn.envYOff ∧ rSpawn.envYOff < 1 ∧
    SpawnTickSpec 800 600 4 (initState 600) rSpawn :=
  ⟨rfl, le_refl 0, le_refl 0, by norm_num [rSpawn], by norm_num [rSpawn],
    claim8_spawn_channels 800 600 4 (initState 600) rSpawn rfl
      (le_refl 0) (le_refl 0) (by norm_num [rSpawn]) (by norm_num [rSpawn])⟩

end Eviction
